import Mathlib

/-!
Verification of the news-digest paper pipeline: a shallow embedding of
`src/paper_fetcher.py`, `src/paper_dedup.py` and the orchestration in
`src/main.py`, together with theorems about selection, pruning,
persistence and the run-level exit behaviour.

Python conventions modelled here:
* `set[str]` membership is modelled by `List.contains` on a `List String`;
* `dict[str, ...]` is modelled by an association list with
  insertion-order update semantics (`dictInsert`);
* exceptions are modelled with `Except PyExc`;
* `random.choice(pool)` is modelled by an arbitrary index `pick`,
  reduced modulo the pool length (raising `IndexError` on an empty pool,
  exactly as Python does);
* timestamps are UTC epoch seconds (`Int`); `timedelta.days` is floored
  division by 86400 (`Int.fdiv`), matching Python's floor semantics.
-/

namespace NewsDigest

/-- Python exceptions relevant to the embedded code paths.
`unicodeDecodeError` is a `ValueError` that is *not* a subclass of
`json.JSONDecodeError` and not an `OSError`, so
`except (json.JSONDecodeError, OSError)` does not catch it. -/
inductive PyExc where
  | indexError
  | jsonDecodeError
  | osError
  | unicodeDecodeError
  deriving DecidableEq, Repr

/-- The `Paper` dataclass from `paper_fetcher.py`. -/
structure Paper where
  paper_id : String
  title : String
  abstract : String
  authors : List String
  year : Option Int
  citation_count : Int
  url : String
  pdf_url : Option String
  category : String
  category_ja : String
  published : String
  categories : Option (List String)
  deriving DecidableEq, Repr

/-- Python slice `l[:k]` for a possibly negative bound `k`. -/
def pySliceTo (l : List α) (k : Int) : List α :=
  if 0 ≤ k then l.take k.toNat else l.take (l.length - (-k).toNat)

/-- Python `random.choice(l)` with the random draw supplied as an index
`pick` (reduced mod the length); raises `IndexError` on an empty list. -/
def pyRandomChoice (l : List α) (pick : Nat) : Except PyExc α :=
  match l with
  | [] => Except.error PyExc.indexError
  | x :: xs => Except.ok ((x :: xs).get ⟨pick % (xs.length + 1), Nat.mod_lt _ (Nat.succ_pos _)⟩)

/-- The list comprehension `[p for p in papers if p.paper_id not in seen_ids]`
inside `select_paper`. -/
def unseenCandidates (papers : List Paper) (seen_ids : List String) : List Paper :=
  papers.filter (fun p => !(seen_ids.contains p.paper_id))

/-- Function `select_paper` from `paper_fetcher.py`: filter out seen papers, return
`None` if nothing is left, else slice the first `top_k` and pick one at
random. -/
def select_paper (papers : List Paper) (seen_ids : List String) (top_k : Int) (pick : Nat) :
    Except PyExc (Option Paper) :=
  match unseenCandidates papers seen_ids with
  | [] => Except.ok none
  | c :: cs =>
    match pyRandomChoice (pySliceTo (c :: cs) top_k) pick with
    | Except.error e => Except.error e
    | Except.ok x => Except.ok (some x)

/-! ### The seen-paper store (`paper_dedup.py`) -/

/-- One value of the `_seen` dict: `{"title": ..., "seen_at": ...}`.
The ISO `seen_at` string is modelled by its parse result in UTC epoch
seconds; `none` models a missing or unparseable timestamp (the
`KeyError`/`ValueError` branch of `prune`). -/
structure SeenEntry where
  title : String
  seen_at : Option Int
  deriving DecidableEq, Repr

/-- The `_seen` dict: an association list in insertion order. -/
abbrev SeenStore := List (String × SeenEntry)

/-- The keys of the store, in order. -/
def storeKeys (s : SeenStore) : List String := s.map Prod.fst

/-- Method `PaperDeduplicator.is_seen`. -/
def is_seen (s : SeenStore) (paper_id : String) : Bool :=
  (storeKeys s).contains paper_id

/-- Method `PaperDeduplicator.get_seen_ids` (the key set, kept as a list). -/
def get_seen_ids (s : SeenStore) : List String := storeKeys s

/-- Python dict assignment `d[k] = v`: overwrite in place if the key is
present, else append at the end. -/
def dictInsert (s : SeenStore) (k : String) (v : SeenEntry) : SeenStore :=
  if (storeKeys s).contains k then
    s.map (fun kv => if kv.1 = k then (k, v) else kv)
  else s ++ [(k, v)]

/-- Method `PaperDeduplicator.mark_seen`: record `paper_id` with the current time. -/
def mark_seen (s : SeenStore) (paper_id title : String) (now : Int) : SeenStore :=
  dictInsert s paper_id ⟨title, some now⟩

/-- Python `timedelta.days` of `now - seen_at`, in seconds: floored division by
86400, matching Python's normalization of negative timedeltas. -/
def tdDays (diff : Int) : Int := Int.fdiv diff 86400

/-- The keep-condition of `PaperDeduplicator.prune`: an entry survives iff
its timestamp parses and `(now - seen_at).days > window_days` fails. -/
def pruneKeep (now window_days : Int) (e : SeenEntry) : Bool :=
  match e.seen_at with
  | none => false
  | some t => !(window_days < tdDays (now - t))

/-- Method `PaperDeduplicator.prune`: drop entries that are too old or have a
missing/unparseable timestamp. (The Python method mutates `self._seen` in
place and returns `None`; state passing models the mutation.) -/
def prune (s : SeenStore) (now window_days : Int) : SeenStore :=
  s.filter (fun kv => pruneKeep now window_days kv.2)

/-- The possible states of the store file `seen_papers.json`. `badUtf8`
is a present, readable file whose bytes are not valid UTF-8: reading it
through the text-mode handle opened with `encoding="utf-8"` raises
`UnicodeDecodeError` inside `json.load`. -/
inductive FileState where
  | absent
  | osError
  | invalidJson
  | badUtf8
  | jsonNonDict
  | jsonDict (d : SeenStore)
  deriving DecidableEq, Repr

/-- The `self.db_path.exists()` check in `_load`. -/
def fileExists : FileState → Bool
  | FileState.absent => false
  | _ => true

/-- Models `open(...)` followed by `json.load(f)`: raises `OSError` on an
unreadable file, `JSONDecodeError` on syntactically invalid JSON text,
and `UnicodeDecodeError` on a file whose bytes do not decode as UTF-8;
otherwise returns the parsed document (`some d` when it is a dict, `none`
when it is valid JSON of another shape). -/
def readJson : FileState → Except PyExc (Option SeenStore)
  | FileState.absent => Except.error PyExc.osError
  | FileState.osError => Except.error PyExc.osError
  | FileState.invalidJson => Except.error PyExc.jsonDecodeError
  | FileState.badUtf8 => Except.error PyExc.unicodeDecodeError
  | FileState.jsonNonDict => Except.ok none
  | FileState.jsonDict d => Except.ok (some d)

/-- Method `PaperDeduplicator._load`: missing file yields an empty dict; the
`except (json.JSONDecodeError, OSError)` clause yields an empty dict; a
parsed non-dict yields an empty dict; any other exception — in particular
the `UnicodeDecodeError` of an undecodable file — propagates to the
caller. -/
def load (f : FileState) : Except PyExc SeenStore :=
  if fileExists f = false then Except.ok []
  else
    match readJson f with
    | Except.ok (some d) => Except.ok d
    | Except.ok none => Except.ok []
    | Except.error PyExc.jsonDecodeError => Except.ok []
    | Except.error PyExc.osError => Except.ok []
    | Except.error e => Except.error e

/-- The store `_load` produces on the file states it survives (every
state except `badUtf8`: `load_ok_of_ne_badUtf8` below). -/
def loadStore : FileState → SeenStore
  | FileState.jsonDict d => d
  | _ => []

/-- Method `PaperDeduplicator.save`: serialize the full mapping as a JSON object
(JSON round-trips the dict faithfully). -/
def save (s : SeenStore) : FileState := FileState.jsonDict s

/-! ### Category rotation (`get_todays_category`) -/

/-- Constant `CATEGORY_ORDER` from `paper_fetcher.py`. -/
def CATEGORY_ORDER : List String := ["distributed_systems", "security", "ai", "cloud"]

/-- Gregorian leap-year rule, as used by Python's `datetime`. -/
def isLeapYear (y : Nat) : Bool := y % 4 == 0 && (y % 100 != 0 || y % 400 == 0)

/-- Length of month `m` (1-based) in year `y`. -/
def daysInMonth (y m : Nat) : Nat :=
  if m = 2 then (if isLeapYear y then 29 else 28)
  else if m = 4 ∨ m = 6 ∨ m = 9 ∨ m = 11 then 30
  else 31

/-- Days strictly before month `m` (1-based) in year `y`. -/
def daysBeforeMonth (y : Nat) : Nat → Nat
  | 0 => 0
  | m + 1 => if m = 0 then 0 else daysBeforeMonth y m + daysInMonth y m

/-- Python `date.timetuple().tm_yday`: the 1-based day of the year. -/
def dayOfYear (y m d : Nat) : Nat := daysBeforeMonth y m + d

/-- The category assigned to a given day-of-year value. -/
def categoryOfDayOfYear (n : Nat) : String := CATEGORY_ORDER.getD (n % 4) ""

/-- Function `get_todays_category` from `paper_fetcher.py`:
`CATEGORY_ORDER[date.timetuple().tm_yday % 4]`. -/
def get_todays_category (y m d : Nat) : String :=
  categoryOfDayOfYear (dayOfYear y m d)

/-- The calendar day after `(y, m, d)`. -/
def nextDay (y m d : Nat) : Nat × Nat × Nat :=
  if d < daysInMonth y m then (y, m, d + 1)
  else if m < 12 then (y, m + 1, 1)
  else (y + 1, 1, 1)

/-! ### Paper-id extraction (`paper_fetcher.py`) -/

/-- Split a character list at every occurrence of `sep`; always returns at
least one group (Python `str.split(sep)` semantics). -/
def pySplitOn (sep : Char) : List Char → List (List Char)
  | [] => [[]]
  | c :: rest =>
    match pySplitOn sep rest with
    | [] => [[]]
    | grp :: grps => if c = sep then [] :: grp :: grps else (c :: grp) :: grps

/-- Python `s.rsplit(sep, 1)`: at most one split, taken from the right. -/
def pyRsplit1 (sep : Char) (s : String) : List String :=
  let parts := pySplitOn sep s.data
  if parts.length ≤ 1 then [s]
  else [String.mk (List.intercalate [sep] parts.dropLast), String.mk (parts.getLastD [])]

/-- Function `_extract_paper_id_from_link`: the RSS path takes everything after the
last slash of the item link (or the whole link when it has no slash). -/
def extract_paper_id_from_link (link : String) : String :=
  let parts := pyRsplit1 '/' link
  if parts.length > 1 then parts.getLastD "" else link

/-- The `paper_id` computation of `_parse_arxiv_response`: the API path
takes everything after the last slash of the Atom `<id>` text, with an
empty id text giving an empty paper id. -/
def paper_id_from_atom_id (id_text : String) : String :=
  if id_text = "" then "" else (pyRsplit1 '/' id_text).getLastD ""

/-! ### Orchestration (`main.py`) -/

/-- The observable outcome of one `run_paper` invocation. -/
structure RunPaperResult where
  exitCode : Option Nat
  digestWritten : Bool
  markedSeen : Option String
  savedFile : Option FileState
  printedBody : Bool
  prAttempted : Bool
  prUrl : Option String
  selected : Option Paper
  deriving DecidableEq, Repr

/-- The `run_paper` outcome when `sys.exit(1)` fires before any artifact
is produced. -/
def fatalResult : RunPaperResult :=
  { exitCode := some 1
    digestWritten := false
    markedSeen := none
    savedFile := none
    printedBody := false
    prAttempted := false
    prUrl := none
    selected := none }

/-- Function `run_paper` from `main.py`, with the network stages supplied as data:
`papers` is what `fetch_papers_for_category` returned, `pick` the random
draw of `select_paper`, and `prResult` what `create_pr` would return. -/
def run_paper (papers : List Paper) (file : FileState) (now : Int) (pick : Nat)
    (dry_run : Bool) (prResult : Option String) : Except PyExc RunPaperResult :=
  if papers.isEmpty then Except.ok fatalResult
  else
    match load file with
    | Except.error e => Except.error e
    | Except.ok store0 =>
      let store1 := prune store0 now 30
      let seen_ids := get_seen_ids store1
      match select_paper papers seen_ids 10 pick with
      | Except.error e => Except.error e
      | Except.ok none => Except.ok fatalResult
      | Except.ok (some paper) =>
        let store2 := mark_seen store1 paper.paper_id paper.title now
        if dry_run then
          Except.ok
            { exitCode := none
              digestWritten := true
              markedSeen := some paper.paper_id
              savedFile := some (save store2)
              printedBody := true
              prAttempted := false
              prUrl := none
              selected := some paper }
        else
          Except.ok
            { exitCode := none
              digestWritten := true
              markedSeen := some paper.paper_id
              savedFile := some (save store2)
              printedBody := false
              prAttempted := true
              prUrl := prResult
              selected := some paper }

/-- One serialized entry of the weekly buffer (`_article_to_dict`). -/
structure WArticle where
  aid : String
  title : String
  link : String
  summary : String
  published : String
  source_name : String
  category : String
  category_ja : String
  deriving DecidableEq, Repr

/-- The effect of `run_collect` on the weekly buffer file: untouched when
the fetch is empty (`sys.exit(1)`) or nothing survives dedup (early
return); otherwise the new articles are appended. `newArticles` is what
`dedup.filter_new` returned for `allArticles`. -/
def run_collect_buffer (allArticles : List WArticle) (buffer newArticles : List WArticle) :
    List WArticle :=
  if allArticles.isEmpty then buffer
  else if newArticles.isEmpty then buffer
  else buffer ++ newArticles

/-- Python truthiness of an `str | None` value. -/
def pyTruthy : Option String → Bool
  | none => false
  | some s => !(s == "")

/-- The effect of `run_digest` on the weekly buffer file: untouched when
the buffer is empty, in dry-run mode, or when `create_pr` returns a falsy
result; cleared to `[]` only after a successful PR. -/
def run_digest_buffer (buffer : List WArticle) (dry_run : Bool) (prResult : Option String) :
    List WArticle :=
  if buffer.isEmpty then buffer
  else if dry_run then buffer
  else if pyTruthy prResult then []
  else buffer

/-! ### Concrete sample data (used by witnesses and counterexamples) -/

/-- A concrete paper, as produced by the RSS parse path. -/
def paperA : Paper :=
  { paper_id := "2401.00001", title := "Paper A", abstract := "a", authors := ["X"],
    year := some 2024, citation_count := 0, url := "https://arxiv.org/abs/2401.00001",
    pdf_url := none, category := "ai", category_ja := "AI", published := "2024-01-02",
    categories := some ["cs.AI"] }

/-- A second concrete paper, ranked after `paperA`. -/
def paperB : Paper :=
  { paper_id := "2401.00002", title := "Paper B", abstract := "b", authors := ["Y"],
    year := some 2024, citation_count := 0, url := "https://arxiv.org/abs/2401.00002",
    pdf_url := none, category := "ai", category_ja := "AI", published := "2024-01-01",
    categories := some ["cs.AI"] }

/-- The outcome of `run_paper [paperA] FileState.absent 0 0 false none`. -/
def sampleRunResult : RunPaperResult :=
  { exitCode := none
    digestWritten := true
    markedSeen := some "2401.00001"
    savedFile := some (FileState.jsonDict [("2401.00001", { title := "Paper A", seen_at := some 0 })])
    printedBody := false
    prAttempted := true
    prUrl := none
    selected := some paperA }

/-- The outcome of `run_paper [paperA] FileState.absent 0 0 true none`. -/
def sampleRunResultDry : RunPaperResult :=
  { exitCode := none
    digestWritten := true
    markedSeen := some "2401.00001"
    savedFile := some (FileState.jsonDict [("2401.00001", { title := "Paper A", seen_at := some 0 })])
    printedBody := true
    prAttempted := false
    prUrl := none
    selected := some paperA }

/-! ### Helper lemmas -/

lemma pyRandomChoice_ok_mem {l : List α} {pick : Nat} {x : α}
    (h : pyRandomChoice l pick = Except.ok x) : x ∈ l := by
  cases l with
  | nil => simp [pyRandomChoice] at h
  | cons a t =>
    simp only [pyRandomChoice, Except.ok.injEq] at h
    subst h
    exact List.get_mem _ _ _

lemma pyRandomChoice_ne_nil {l : List α} (h : l ≠ []) (pick : Nat) :
    ∃ x, pyRandomChoice l pick = Except.ok x := by
  cases l with
  | nil => exact absurd rfl h
  | cons a t => exact ⟨_, rfl⟩

lemma pySliceTo_subset (l : List α) (k : Int) : pySliceTo l k ⊆ l := by
  unfold pySliceTo
  split <;> exact List.take_subset _ _

lemma pySliceTo_ne_nil {l : List α} (h : l ≠ []) {k : Int} (hk : 1 ≤ k) :
    pySliceTo l k ≠ [] := by
  unfold pySliceTo
  rw [if_pos (le_trans (by norm_num) hk)]
  intro hnil
  rcases List.take_eq_nil_iff.mp hnil with h0 | h0
  · omega
  · exact h h0

lemma unseenCandidates_eq_nil_iff (papers : List Paper) (seen : List String) :
    unseenCandidates papers seen = [] ↔ ∀ p ∈ papers, seen.contains p.paper_id = true := by
  unfold unseenCandidates
  rw [List.filter_eq_nil_iff]
  constructor
  · intro h p hp
    have := h p hp
    simpa using this
  · intro h p hp
    simpa using h p hp

lemma unseen_of_mem_unseenCandidates {papers : List Paper} {seen : List String} {q : Paper}
    (h : q ∈ unseenCandidates papers seen) :
    q ∈ papers ∧ seen.contains q.paper_id = false := by
  unfold unseenCandidates at h
  refine ⟨List.mem_of_mem_filter h, ?_⟩
  have := List.of_mem_filter h
  simpa using this

lemma select_paper_eq_ok_none_iff (papers : List Paper) (seen : List String)
    (k : Int) (pick : Nat) :
    select_paper papers seen k pick = Except.ok none ↔
      ∀ p ∈ papers, seen.contains p.paper_id = true := by
  rw [← unseenCandidates_eq_nil_iff]
  unfold select_paper
  cases hc : unseenCandidates papers seen with
  | nil => simp
  | cons c cs =>
    simp only
    constructor
    · intro h
      split at h <;> simp_all
    · intro h
      exact absurd h (by simp)

lemma select_paper_ok_some {papers : List Paper} {seen : List String}
    {k : Int} {pick : Nat} {q : Paper}
    (h : select_paper papers seen k pick = Except.ok (some q)) :
    q ∈ pySliceTo (unseenCandidates papers seen) k ∧
      seen.contains q.paper_id = false := by
  unfold select_paper at h
  cases hc : unseenCandidates papers seen with
  | nil => rw [hc] at h; exact absurd h (by simp)
  | cons c cs =>
    rw [hc] at h
    simp only at h
    split at h
    · exact absurd h (by simp)
    · rename_i x hx
      have hq : q = x := by simpa using h.symm
      subst hq
      have hmem : q ∈ unseenCandidates papers seen := by
        rw [hc]
        exact pySliceTo_subset _ _ (pyRandomChoice_ok_mem hx)
      exact ⟨pyRandomChoice_ok_mem hx, (unseen_of_mem_unseenCandidates hmem).2⟩

lemma select_paper_some_of_unseen {papers : List Paper} {seen : List String}
    {k : Int} (pick : Nat) (hk : 1 ≤ k)
    (h : unseenCandidates papers seen ≠ []) :
    ∃ q, select_paper papers seen k pick = Except.ok (some q) := by
  unfold select_paper
  cases hc : unseenCandidates papers seen with
  | nil => exact absurd hc h
  | cons c cs =>
    have hpool : pySliceTo (c :: cs) k ≠ [] :=
      pySliceTo_ne_nil (List.cons_ne_nil c cs) hk
    rcases pyRandomChoice_ne_nil hpool pick with ⟨x, hx⟩
    exact ⟨x, by simp [hx]⟩

lemma select_paper_error_iff (papers : List Paper) (seen : List String)
    (k : Int) (pick : Nat) :
    (∃ e, select_paper papers seen k pick = Except.error e) ↔
      (unseenCandidates papers seen ≠ [] ∧
        pySliceTo (unseenCandidates papers seen) k = []) := by
  unfold select_paper
  cases hc : unseenCandidates papers seen with
  | nil => simp
  | cons c cs =>
    simp only [ne_eq, reduceCtorEq, not_false_eq_true, true_and]
    constructor
    · rintro ⟨e, he⟩
      split at he
      · rename_i hx
        cases hl : pySliceTo (c :: cs) k with
        | nil => rfl
        | cons a t =>
          rw [hl] at hx
          simp [pyRandomChoice] at hx
      · simp at he
    · intro hpool
      rw [hpool]
      exact ⟨PyExc.indexError, rfl⟩

lemma load_ok_of_ne_badUtf8 (f : FileState) (h : f ≠ FileState.badUtf8) :
    load f = Except.ok (loadStore f) := by
  cases f <;> first | rfl | exact absurd rfl h

lemma load_badUtf8 : load FileState.badUtf8 = Except.error PyExc.unicodeDecodeError := rfl

lemma tdDays_eq_ediv (d : Int) : tdDays d = d / 86400 := by
  unfold tdDays
  exact Int.fdiv_eq_ediv _ (by norm_num)

lemma storeKeys_dictInsert (s : SeenStore) (k : String) (v : SeenEntry) :
    (storeKeys (dictInsert s k v)).contains k = true := by
  unfold dictInsert
  by_cases h : (storeKeys s).contains k = true
  · rw [if_pos h]
    have : storeKeys (s.map (fun kv => if kv.1 = k then (k, v) else kv)) =
        (storeKeys s).map (fun x => if x = k then k else x) := by
      unfold storeKeys
      rw [List.map_map, List.map_map]
      apply List.map_congr_left
      intro kv _
      by_cases hkv : kv.1 = k <;> simp [hkv]
    rw [this]
    rcases List.elem_iff.mp h with hmem
    have : k ∈ (storeKeys s).map (fun x => if x = k then k else x) := by
      refine List.mem_map.mpr ⟨k, hmem, ?_⟩
      simp
    exact List.elem_iff.mpr this
  · rw [if_neg h]
    unfold storeKeys
    apply List.elem_iff.mpr
    simp

lemma is_seen_mark_seen (s : SeenStore) (pid ttl : String) (now : Int) :
    is_seen (mark_seen s pid ttl now) pid = true := by
  unfold is_seen mark_seen
  exact storeKeys_dictInsert s pid _

lemma prune_sublist (s : SeenStore) (now w : Int) :
    List.Sublist (prune s now w) s :=
  List.filter_sublist s

lemma mem_prune_iff (s : SeenStore) (now w : Int) (kv : String × SeenEntry) :
    kv ∈ prune s now w ↔
      kv ∈ s ∧ ∃ t, kv.2.seen_at = some t ∧ tdDays (now - t) ≤ w := by
  unfold prune
  rw [List.mem_filter]
  unfold pruneKeep
  constructor
  · rintro ⟨hmem, hkeep⟩
    refine ⟨hmem, ?_⟩
    cases hsa : kv.2.seen_at with
    | none => rw [hsa] at hkeep; simp at hkeep
    | some t =>
      rw [hsa] at hkeep
      simp only [Bool.not_eq_true'] at hkeep
      refine ⟨t, rfl, ?_⟩
      by_contra hlt
      push_neg at hlt
      rw [decide_eq_false_iff_not] at hkeep
      exact hkeep hlt
  · rintro ⟨hmem, t, hsa, hle⟩
    refine ⟨hmem, ?_⟩
    rw [hsa]
    simp only [Bool.not_eq_true']
    rw [decide_eq_false_iff_not]
    omega

lemma pySliceTo_zero (l : List α) : pySliceTo l 0 = [] := by
  simp [pySliceTo]

lemma pySliceTo_neg (l : List α) {k : Int} (hk : k < 0) :
    pySliceTo l k = l.take (l.length - (-k).toNat) := by
  unfold pySliceTo
  rw [if_neg (by omega)]

lemma pruneKeep_parseable (now w t : Int) (ttl : String) :
    pruneKeep now w ⟨ttl, some t⟩ = true ↔ tdDays (now - t) ≤ w := by
  unfold pruneKeep
  simp only [Bool.not_eq_true']
  rw [decide_eq_false_iff_not]
  omega

lemma prune_singleton_keep (now w : Int) (key ttl : String) (t : Int)
    (h : tdDays (now - t) ≤ w) :
    prune [(key, ⟨ttl, some t⟩)] now w = [(key, ⟨ttl, some t⟩)] := by
  unfold prune
  rw [List.filter_cons, if_pos ((pruneKeep_parseable now w t ttl).mpr h)]
  rfl

lemma prune_singleton_drop (now w : Int) (key ttl : String) (t : Int)
    (h : w < tdDays (now - t)) :
    prune [(key, ⟨ttl, some t⟩)] now w = [] := by
  unfold prune
  rw [List.filter_cons, if_neg]
  · rfl
  · intro hkeep
    have := (pruneKeep_parseable now w t ttl).mp hkeep
    omega

lemma daysBeforeMonth_succ (y m : Nat) (h : 1 ≤ m) :
    daysBeforeMonth y (m + 1) = daysBeforeMonth y m + daysInMonth y m := by
  cases m with
  | zero => omega
  | succ k =>
    show (if k + 1 = 0 then 0 else daysBeforeMonth y (k + 1) + daysInMonth y (k + 1)) = _
    rw [if_neg (Nat.succ_ne_zero k)]

lemma categoryOfDayOfYear_mem (n : Nat) : categoryOfDayOfYear n ∈ CATEGORY_ORDER := by
  have h : n % 4 = 0 ∨ n % 4 = 1 ∨ n % 4 = 2 ∨ n % 4 = 3 := by omega
  rcases h with h | h | h | h <;> simp [categoryOfDayOfYear, h, CATEGORY_ORDER]

lemma rotation_perm (n : Nat) :
    List.Perm
      [categoryOfDayOfYear n, categoryOfDayOfYear (n + 1),
        categoryOfDayOfYear (n + 2), categoryOfDayOfYear (n + 3)]
      CATEGORY_ORDER := by
  have h : n % 4 = 0 ∨ n % 4 = 1 ∨ n % 4 = 2 ∨ n % 4 = 3 := by omega
  rcases h with h | h | h | h <;>
    [skip; skip; skip; skip] <;>
    · have h1 : (n + 1) % 4 = (n % 4 + 1) % 4 := by omega
      have h2 : (n + 2) % 4 = (n % 4 + 2) % 4 := by omega
      have h3 : (n + 3) % 4 = (n % 4 + 3) % 4 := by omega
      simp only [categoryOfDayOfYear, h1, h2, h3, h]
      decide

lemma dayOfYear_nextDay (y m d : Nat) (hm1 : 1 ≤ m) (hm2 : m ≤ 12)
    (hd1 : 1 ≤ d) (hd2 : d ≤ daysInMonth y m)
    (hy : (nextDay y m d).1 = y) :
    dayOfYear y (nextDay y m d).2.1 (nextDay y m d).2.2 = dayOfYear y m d + 1 := by
  unfold nextDay at hy ⊢
  by_cases h1 : d < daysInMonth y m
  · rw [if_pos h1]
    show dayOfYear y m (d + 1) = dayOfYear y m d + 1
    unfold dayOfYear
    omega
  · rw [if_neg h1]
    rw [if_neg h1] at hy
    by_cases h2 : m < 12
    · rw [if_pos h2]
      show dayOfYear y (m + 1) 1 = dayOfYear y m d + 1
      unfold dayOfYear
      rw [daysBeforeMonth_succ y m hm1]
      omega
    · rw [if_neg h2] at hy
      simp at hy

lemma run_paper_cases (papers : List Paper) (file : FileState) (now : Int) (pick : Nat)
    (dry : Bool) (pr : Option String) (r : RunPaperResult)
    (h : run_paper papers file now pick dry pr = Except.ok r) :
    (papers = [] ∧ r = fatalResult) ∨
    (papers ≠ [] ∧
      select_paper papers (get_seen_ids (prune (loadStore file) now 30)) 10 pick =
        Except.ok none ∧ r = fatalResult) ∨
    (papers ≠ [] ∧ ∃ paper,
      select_paper papers (get_seen_ids (prune (loadStore file) now 30)) 10 pick =
        Except.ok (some paper) ∧
      r = { exitCode := none
            digestWritten := true
            markedSeen := some paper.paper_id
            savedFile := some (save (mark_seen (prune (loadStore file) now 30)
                paper.paper_id paper.title now))
            printedBody := dry
            prAttempted := !dry
            prUrl := if dry then none else pr
            selected := some paper }) := by
  unfold run_paper at h
  by_cases hp : papers.isEmpty = true
  · rw [if_pos hp] at h
    left
    exact ⟨List.isEmpty_iff.mp hp, (Except.ok.inj h).symm⟩
  · rw [if_neg hp] at h
    by_cases hbad : file = FileState.badUtf8
    · rw [hbad, load_badUtf8] at h
      simp at h
    rw [load_ok_of_ne_badUtf8 file hbad] at h
    simp only at h
    have hne : papers ≠ [] := fun hnil => hp (by simp [hnil])
    rcases hsel : select_paper papers (get_seen_ids (prune (loadStore file) now 30)) 10 pick
      with e | o
    · rw [hsel] at h
      simp at h
    · rw [hsel] at h
      cases o with
      | none =>
        simp only at h
        right; left
        exact ⟨hne, rfl, (Except.ok.inj h).symm⟩
      | some paper =>
        simp only at h
        right; right
        refine ⟨hne, paper, rfl, ?_⟩
        cases dry with
        | true =>
          rw [if_pos rfl] at h
          simpa using (Except.ok.inj h).symm
        | false =>
          rw [if_neg (by simp)] at h
          simpa using (Except.ok.inj h).symm

/-! ### Claims -/

/-- Claim C1, counterexample to the claim as stated: with pool size `k = 0`
and a candidate list whose single paper is unseen, `select_paper` neither
returns `None` nor an unseen paper — it raises `IndexError`
(`random.choice` on the empty slice `candidates[:0]`). -/
theorem select_paper_zero_pool_counterexample :
    ([] : List String).contains paperA.paper_id = false ∧
    select_paper [paperA] [] 0 0 = Except.error PyExc.indexError :=
  ⟨rfl, rfl⟩

/-- Claim C1 (amended: pool size at least 1): for every candidate list,
seen-set and pool size `k ≥ 1`, `select_paper` returns `None` iff every
candidate's id is seen; any returned paper is unseen and lies among the
first `k` papers of the filtered sublist in its given order; and when an
unseen candidate exists, a paper is in fact returned. -/
theorem select_paper_correct (papers : List Paper) (seen : List String) (k : Int)
    (pick : Nat) (hk : 1 ≤ k) :
    (select_paper papers seen k pick = Except.ok none ↔
      ∀ p ∈ papers, seen.contains p.paper_id = true) ∧
    (∀ q, select_paper papers seen k pick = Except.ok (some q) →
      seen.contains q.paper_id = false ∧
      q ∈ pySliceTo (unseenCandidates papers seen) k) ∧
    ((∃ p ∈ papers, seen.contains p.paper_id = false) →
      ∃ q, select_paper papers seen k pick = Except.ok (some q)) := by
  refine ⟨select_paper_eq_ok_none_iff papers seen k pick, ?_, ?_⟩
  · intro q hq
    have h2 := select_paper_ok_some hq
    exact ⟨h2.2, h2.1⟩
  · rintro ⟨p, hp, hunseen⟩
    apply select_paper_some_of_unseen pick hk
    intro hnil
    have hc := (unseenCandidates_eq_nil_iff papers seen).mp hnil p hp
    simp at hunseen
    exact hunseen (by simpa using hc)

/-- Witness for C1 at a concrete input: one unseen candidate, pool size 1. -/
theorem select_paper_correct_witness :
    (1 : Int) ≤ 1 ∧
    ((select_paper [paperB] [] 1 0 = Except.ok none ↔
      ∀ p ∈ ([paperB] : List Paper), ([] : List String).contains p.paper_id = true) ∧
    (∀ q, select_paper [paperB] [] 1 0 = Except.ok (some q) →
      ([] : List String).contains q.paper_id = false ∧
      q ∈ pySliceTo (unseenCandidates [paperB] []) 1) ∧
    ((∃ p ∈ ([paperB] : List Paper), ([] : List String).contains p.paper_id = false) →
      ∃ q, select_paper [paperB] [] 1 0 = Except.ok (some q))) :=
  ⟨le_refl 1, select_paper_correct [paperB] [] 1 0 (le_refl 1)⟩

/-- Claim C2, counterexample to the claim as stated: with `now = 0` and a
window of 30 days, an entry aged exactly 30 days plus 1 second survives
`prune`, because `(now - seen_at).days` truncates to 30 and the code tests
`> 30` strictly; the claim says such an entry is pruned. -/
theorem prune_boundary_counterexample :
    prune [("p1", ⟨"T", some (-(30 * 86400 + 1))⟩)] 0 30 =
      [("p1", ⟨"T", some (-(30 * 86400 + 1))⟩)] := by
  decide

/-- Claim C2 (amended): `prune` keeps order (a sublist of the store) and
removes exactly the entries whose timestamp is missing/unparseable or
whose age in whole days — `floor((now - seen_at) / 1 day)` — exceeds
`window_days`; it mutates the store (returning `None`, not a count). At
the boundary, an entry aged `N` days plus 1 second survives, an entry
aged `N+1` days is pruned, an entry aged `N-1` days survives, and an
entry with a missing timestamp is pruned. -/
theorem prune_characterization (s : SeenStore) (now w : Int) :
    List.Sublist (prune s now w) s ∧
    (∀ kv, kv ∈ prune s now w ↔
      kv ∈ s ∧ ∃ t, (kv.2 : SeenEntry).seen_at = some t ∧ tdDays (now - t) ≤ w) ∧
    (∀ key ttl, prune [(key, ⟨ttl, some (now - (w * 86400 + 1))⟩)] now w =
      [(key, ⟨ttl, some (now - (w * 86400 + 1))⟩)]) ∧
    (∀ key ttl, prune [(key, ⟨ttl, some (now - (w + 1) * 86400)⟩)] now w = []) ∧
    (∀ key ttl, prune [(key, ⟨ttl, some (now - (w - 1) * 86400)⟩)] now w =
      [(key, ⟨ttl, some (now - (w - 1) * 86400)⟩)]) ∧
    (∀ key ttl, prune [(key, (⟨ttl, none⟩ : SeenEntry))] now w = []) := by
  refine ⟨prune_sublist s now w, mem_prune_iff s now w, ?_, ?_, ?_, ?_⟩
  · intro key ttl
    apply prune_singleton_keep
    rw [tdDays_eq_ediv]
    omega
  · intro key ttl
    apply prune_singleton_drop
    rw [tdDays_eq_ediv]
    omega
  · intro key ttl
    apply prune_singleton_keep
    rw [tdDays_eq_ediv]
    omega
  · intro key ttl
    unfold prune
    rw [List.filter_cons, if_neg (by simp [pruneKeep])]
    rfl

/-- Claim C3: after `mark_seen` and `save`, a fresh load from the same
path returns exactly the saved mapping; the marked id is seen both in the
saved store and in any store a reload yields, so a second run over the
same data finds the item already recorded. -/
theorem mark_seen_save_reload (s : SeenStore) (pid ttl : String) (now : Int) :
    load (save (mark_seen s pid ttl now)) = Except.ok (mark_seen s pid ttl now) ∧
    is_seen (mark_seen s pid ttl now) pid = true ∧
    (∀ s2, load (save (mark_seen s pid ttl now)) = Except.ok s2 →
      get_seen_ids s2 = get_seen_ids (mark_seen s pid ttl now) ∧ is_seen s2 pid = true) := by
  refine ⟨rfl, is_seen_mark_seen s pid ttl now, ?_⟩
  intro s2 h2
  have h3 : mark_seen s pid ttl now = s2 := Except.ok.inj h2
  subst h3
  exact ⟨rfl, is_seen_mark_seen s pid ttl now⟩

/-- Witness for C3 at a concrete input: marking a paper in an empty store. -/
theorem mark_seen_save_reload_witness :
    load (save (mark_seen [] "2401.00009" "T" 5)) =
      Except.ok (mark_seen [] "2401.00009" "T" 5) ∧
    is_seen (mark_seen [] "2401.00009" "T" 5) "2401.00009" = true ∧
    (∀ s2, load (save (mark_seen [] "2401.00009" "T" 5)) = Except.ok s2 →
      get_seen_ids s2 = get_seen_ids (mark_seen [] "2401.00009" "T" 5) ∧
      is_seen s2 "2401.00009" = true) :=
  mark_seen_save_reload [] "2401.00009" "T" 5

/-- Claim C4, counterexample to the claim as stated: a store file whose
bytes are not valid UTF-8 is a corrupt file on which `json.load` raises
`UnicodeDecodeError`; that exception is caught by neither
`json.JSONDecodeError` nor `OSError`, so `_load` propagates it to the
caller instead of yielding an empty store. -/
theorem load_undecodable_counterexample :
    load FileState.badUtf8 = Except.error PyExc.unicodeDecodeError ∧
    load FileState.badUtf8 ≠ Except.ok [] :=
  ⟨rfl, fun h => Except.noConfusion h⟩

/-- Claim C4 (amended): loading fails soft on an absent file, an
unreadable file (`OSError`), syntactically invalid JSON
(`JSONDecodeError`), and valid JSON that is not an object — all yield the
empty store without raising, and every file state other than an
undecodable (non-UTF-8) file loads successfully; an undecodable file,
however, raises `UnicodeDecodeError` to the caller, because the `except`
clause lists only `json.JSONDecodeError` and `OSError`. -/
theorem load_fails_soft :
    load FileState.absent = Except.ok [] ∧
    load FileState.osError = Except.ok [] ∧
    load FileState.invalidJson = Except.ok [] ∧
    load FileState.jsonNonDict = Except.ok [] ∧
    (∀ f : FileState, f ≠ FileState.badUtf8 → load f = Except.ok (loadStore f)) ∧
    load FileState.badUtf8 = Except.error PyExc.unicodeDecodeError :=
  ⟨rfl, rfl, rfl, rfl, load_ok_of_ne_badUtf8, rfl⟩

/-- Witness for C4 at a concrete input: a well-formed one-entry store
file loads as that store. -/
theorem load_fails_soft_witness :
    load (FileState.jsonDict [("2401.00007", ⟨"W", some 3⟩)]) =
      Except.ok (loadStore (FileState.jsonDict [("2401.00007", ⟨"W", some 3⟩)])) :=
  load_fails_soft.2.2.2.2.1 (FileState.jsonDict [("2401.00007", ⟨"W", some 3⟩)])
    (by decide)

/-- Claim C5: `run_paper` terminates with exit code 1 exactly when the
fetch produced no papers or every candidate is already seen (after the
30-day prune of the loaded store); in both cases no digest file is
written, no PR is attempted, nothing is marked seen and nothing is saved. -/
theorem run_paper_fatal_exit (papers : List Paper) (file : FileState) (now : Int)
    (pick : Nat) (dry : Bool) (pr : Option String) (r : RunPaperResult)
    (h : run_paper papers file now pick dry pr = Except.ok r) :
    (r.exitCode = some 1 ↔
      (papers = [] ∨
        ∀ p ∈ papers,
          (get_seen_ids (prune (loadStore file) now 30)).contains p.paper_id = true)) ∧
    (r.exitCode = some 1 →
      r.digestWritten = false ∧ r.prAttempted = false ∧ r.prUrl = none ∧
        r.markedSeen = none ∧ r.savedFile = none) := by
  rcases run_paper_cases papers file now pick dry pr r h with
    ⟨hnil, hr⟩ | ⟨hne, hsel, hr⟩ | ⟨hne, paper, hsel, hr⟩
  · subst hr
    exact ⟨⟨fun _ => Or.inl hnil, fun _ => rfl⟩, fun _ => ⟨rfl, rfl, rfl, rfl, rfl⟩⟩
  · subst hr
    have hall := (select_paper_eq_ok_none_iff papers _ 10 pick).mp hsel
    exact ⟨⟨fun _ => Or.inr hall, fun _ => rfl⟩, fun _ => ⟨rfl, rfl, rfl, rfl, rfl⟩⟩
  · subst hr
    constructor
    · constructor
      · intro hx
        exact absurd hx (by simp)
      · rintro (hnil | hall)
        · exact absurd hnil hne
        · have hsel2 := (select_paper_eq_ok_none_iff papers
            (get_seen_ids (prune (loadStore file) now 30)) 10 pick).mpr hall
          have := hsel.symm.trans hsel2
          simp at this
    · intro hx
      exact absurd hx (by simp)

/-- Witness for C5 at a concrete input: one unseen paper against an absent
store file, which selects the paper and exits normally. -/
theorem run_paper_fatal_exit_witness :
    (sampleRunResult.exitCode = some 1 ↔
      (([paperA] : List Paper) = [] ∨
        ∀ p ∈ ([paperA] : List Paper),
          (get_seen_ids (prune (loadStore FileState.absent) 0 30)).contains p.paper_id
            = true)) ∧
    (sampleRunResult.exitCode = some 1 →
      sampleRunResult.digestWritten = false ∧ sampleRunResult.prAttempted = false ∧
        sampleRunResult.prUrl = none ∧ sampleRunResult.markedSeen = none ∧
        sampleRunResult.savedFile = none) :=
  run_paper_fatal_exit [paperA] FileState.absent 0 0 false none sampleRunResult rfl

/-- Claim C6: the weekly buffer is append-only across `run_collect` runs
(the old buffer is always a prefix of the new one), and `run_digest`
leaves the buffer file unchanged in dry-run mode or when `create_pr`
returns `None` — it is cleared to empty only when `create_pr` returns a
(non-empty) URL on a non-dry run with a non-empty buffer. -/
theorem weekly_buffer_lifecycle (allA : List WArticle) (buffer newA : List WArticle)
    (dry : Bool) (pr : Option String) :
    (∃ rest, run_collect_buffer allA buffer newA = buffer ++ rest) ∧
    (dry = true → run_digest_buffer buffer dry pr = buffer) ∧
    (pr = none → run_digest_buffer buffer dry pr = buffer) ∧
    (∀ u, pr = some u → u ≠ "" → dry = false → buffer ≠ [] →
      run_digest_buffer buffer dry pr = []) ∧
    (run_digest_buffer buffer dry pr ≠ buffer →
      dry = false ∧ pyTruthy pr = true ∧ run_digest_buffer buffer dry pr = []) := by
  refine ⟨?_, ?_, ?_, ?_, ?_⟩
  · unfold run_collect_buffer
    by_cases h1 : allA.isEmpty = true
    · rw [if_pos h1]
      exact ⟨[], (List.append_nil _).symm⟩
    · rw [if_neg h1]
      by_cases h2 : newA.isEmpty = true
      · rw [if_pos h2]
        exact ⟨[], (List.append_nil _).symm⟩
      · rw [if_neg h2]
        exact ⟨newA, rfl⟩
  · intro hd
    subst hd
    unfold run_digest_buffer
    by_cases h1 : buffer.isEmpty = true
    · rw [if_pos h1]
    · rw [if_neg h1, if_pos rfl]
  · intro hpr
    subst hpr
    unfold run_digest_buffer
    by_cases h1 : buffer.isEmpty = true
    · rw [if_pos h1]
    · rw [if_neg h1]
      by_cases h2 : dry = true
      · rw [if_pos h2]
      · rw [if_neg h2, if_neg (by simp [pyTruthy])]
  · intro u hu hne hd hb
    subst hu
    subst hd
    unfold run_digest_buffer
    rw [if_neg (by simpa [List.isEmpty_iff] using hb), if_neg (by simp),
      if_pos (by simp [pyTruthy, hne])]
  · intro hch
    unfold run_digest_buffer at hch ⊢
    by_cases h1 : buffer.isEmpty = true
    · rw [if_pos h1] at hch
      exact absurd rfl hch
    · rw [if_neg h1] at hch ⊢
      by_cases h2 : dry = true
      · rw [if_pos h2] at hch
        exact absurd rfl hch
      · rw [if_neg h2] at hch ⊢
        by_cases h3 : pyTruthy pr = true
        · rw [if_pos h3] at hch ⊢
          exact ⟨by simpa using h2, h3, rfl⟩
        · rw [if_neg h3] at hch
          exact absurd rfl hch

/-- Witness for C6 at a concrete input: an empty buffer and lists, a
truthy PR result, no dry run. -/
theorem weekly_buffer_lifecycle_witness :
    (∃ rest, run_collect_buffer [] [] [] = [] ++ rest) ∧
    (false = true → run_digest_buffer [] false (some "u") = []) ∧
    (some "u" = none → run_digest_buffer [] false (some "u") = []) ∧
    (∀ u, some "u" = some u → u ≠ "" → false = false → ([] : List WArticle) ≠ [] →
      run_digest_buffer [] false (some "u") = []) ∧
    (run_digest_buffer [] false (some "u") ≠ [] →
      false = false ∧ pyTruthy (some "u") = true ∧ run_digest_buffer [] false (some "u") = []) :=
  weekly_buffer_lifecycle [] [] [] false (some "u")

/-- Claim C7, counterexample to the claim as stated: with `top_k = -2` and
two unseen candidates, `select_paper` raises `IndexError` (the slice
`candidates[:-2]` is empty) instead of defensively returning the
best-ranked unseen candidate. -/
theorem select_paper_negative_pool_counterexample :
    unseenCandidates [paperA, paperB] [] = [paperA, paperB] ∧
    select_paper [paperA, paperB] [] (-2) 0 = Except.error PyExc.indexError :=
  ⟨rfl, rfl⟩

/-- Claim C7 (amended): `select_paper` does not treat a pool size `k ≤ 0`
as 1; with at least one unseen candidate it raises `IndexError` exactly
when `k = 0` or the unseen count is at most `|k|`, and otherwise selects
an unseen paper from the slice `candidates[:k]`, i.e. all unseen
candidates except the last `|k|`. -/
theorem select_paper_nonpos_pool (papers : List Paper) (seen : List String) (k : Int)
    (pick : Nat) (hk : k ≤ 0) (hne : unseenCandidates papers seen ≠ []) :
    ((∃ e, select_paper papers seen k pick = Except.error e) ↔
      (k = 0 ∨ (unseenCandidates papers seen).length ≤ (-k).toNat)) ∧
    (∀ q, select_paper papers seen k pick = Except.ok (some q) →
      seen.contains q.paper_id = false ∧
      q ∈ (unseenCandidates papers seen).take
        ((unseenCandidates papers seen).length - (-k).toNat)) := by
  constructor
  · rw [select_paper_error_iff]
    by_cases h0 : k = 0
    · subst h0
      simp [pySliceTo_zero, hne]
    · have hklt : k < 0 := by omega
      rw [pySliceTo_neg _ hklt]
      constructor
      · rintro ⟨-, htake⟩
        rcases List.take_eq_nil_iff.mp htake with h | h
        · right
          omega
        · exact absurd h hne
      · rintro (h | h)
        · exact absurd h h0
        · refine ⟨hne, ?_⟩
          rw [List.take_eq_nil_iff]
          left
          omega
  · intro q hq
    have h2 := select_paper_ok_some hq
    by_cases h0 : k = 0
    · subst h0
      rw [pySliceTo_zero] at h2
      exact absurd h2.1 (List.not_mem_nil q)
    · have hklt : k < 0 := by omega
      rw [pySliceTo_neg _ hklt] at h2
      exact ⟨h2.2, h2.1⟩

/-- Witness for C7 at a concrete input: `top_k = -1` with two unseen
candidates leaves a pool of one, so no error is raised there. -/
theorem select_paper_nonpos_pool_witness :
    (-1 : Int) ≤ 0 ∧ unseenCandidates [paperA, paperB] [] ≠ [] ∧
    (((∃ e, select_paper [paperA, paperB] [] (-1) 0 = Except.error e) ↔
      ((-1 : Int) = 0 ∨ (unseenCandidates [paperA, paperB] []).length ≤ ((-(-1) : Int)).toNat)) ∧
    (∀ q, select_paper [paperA, paperB] [] (-1) 0 = Except.ok (some q) →
      ([] : List String).contains q.paper_id = false ∧
      q ∈ (unseenCandidates [paperA, paperB] []).take
        ((unseenCandidates [paperA, paperB] []).length - ((-(-1) : Int)).toNat))) :=
  ⟨by norm_num, by decide,
    select_paper_nonpos_pool [paperA, paperB] [] (-1) 0 (by norm_num) (by decide)⟩

/-- Claim C8, counterexample to the claim as stated: for the same logical
paper (arXiv 2401.12345) the RSS `<link>` carries no version suffix while
the arXiv API Atom `<id>` carries one, and neither extractor strips it,
so the two fetch paths produce different identities and dedup does not
recognize the paper across them. -/
theorem paper_id_extraction_counterexample :
    extract_paper_id_from_link "https://arxiv.org/abs/2401.12345" = "2401.12345" ∧
    paper_id_from_atom_id "http://arxiv.org/abs/2401.12345v1" = "2401.12345v1" ∧
    ("2401.12345" : String) ≠ "2401.12345v1" := by
  refine ⟨by decide, by decide, by decide⟩

/-- Claim C8 (amended): the two extractors apply the identical
transformation — the substring after the last slash, with no stripping of
version suffixes — and therefore agree on every identical input string;
but because the RSS `<link>` omits the version suffix while the Atom
`<id>` carries it, the same logical paper yields different identities on
the two fetch paths, so the claimed cross-path consistency of the dedup
key does not hold. -/
theorem paper_id_extraction_consistent (s : String) :
    extract_paper_id_from_link s = paper_id_from_atom_id s := by
  unfold extract_paper_id_from_link paper_id_from_atom_id pyRsplit1
  by_cases hs : s = ""
  · subst hs
    decide
  · rw [if_neg hs]
    by_cases hl : (pySplitOn '/' s.data).length ≤ 1
    · simp only [if_pos hl]
      simp
    · simp only [if_neg hl]
      simp

/-- Claim C9: in dry-run mode `run_paper` skips only PR creation and
prints the body instead; on the successful path the digest is still
written, the paper still marked seen and the store still saved, and the
corresponding non-dry run differs in nothing but the print/PR stage. -/
theorem run_paper_dry_run_frame (papers : List Paper) (file : FileState) (now : Int)
    (pick : Nat) (pr : Option String) (r : RunPaperResult)
    (h : run_paper papers file now pick true pr = Except.ok r)
    (hs : r.exitCode = none) :
    r.prAttempted = false ∧ r.prUrl = none ∧ r.printedBody = true ∧
    r.digestWritten = true ∧
    (∃ p, r.selected = some p ∧ r.markedSeen = some p.paper_id ∧
      r.savedFile = some (save (mark_seen (prune (loadStore file) now 30)
        p.paper_id p.title now))) ∧
    (∀ r2, run_paper papers file now pick false pr = Except.ok r2 →
      r2.exitCode = r.exitCode ∧ r2.digestWritten = r.digestWritten ∧
      r2.markedSeen = r.markedSeen ∧ r2.savedFile = r.savedFile ∧
      r2.selected = r.selected ∧ r2.printedBody = false ∧ r2.prAttempted = true) := by
  rcases run_paper_cases papers file now pick true pr r h with
    ⟨hnil, hr⟩ | ⟨hne, hsel, hr⟩ | ⟨hne, paper, hsel, hr⟩
  · rw [hr] at hs
    simp [fatalResult] at hs
  · rw [hr] at hs
    simp [fatalResult] at hs
  · subst hr
    refine ⟨rfl, rfl, rfl, rfl, ⟨paper, rfl, rfl, rfl⟩, ?_⟩
    intro r2 h2
    rcases run_paper_cases papers file now pick false pr r2 h2 with
      ⟨hnil2, hr2⟩ | ⟨hne2, hsel2, hr2⟩ | ⟨hne2, paper2, hsel2, hr2⟩
    · exact absurd hnil2 hne
    · have := hsel.symm.trans hsel2
      simp at this
    · have hpp : paper2 = paper := by
        have := hsel.symm.trans hsel2
        simpa using this.symm
      subst hpp
      subst hr2
      exact ⟨rfl, rfl, rfl, rfl, rfl, rfl, rfl⟩

/-- Witness for C9 at a concrete input: a dry run over one unseen paper
and an absent store file. -/
theorem run_paper_dry_run_frame_witness :
    sampleRunResultDry.prAttempted = false ∧ sampleRunResultDry.prUrl = none ∧
    sampleRunResultDry.printedBody = true ∧ sampleRunResultDry.digestWritten = true ∧
    (∃ p, sampleRunResultDry.selected = some p ∧
      sampleRunResultDry.markedSeen = some p.paper_id ∧
      sampleRunResultDry.savedFile = some (save (mark_seen
        (prune (loadStore FileState.absent) 0 30) p.paper_id p.title 0))) ∧
    (∀ r2, run_paper [paperA] FileState.absent 0 0 false none = Except.ok r2 →
      r2.exitCode = sampleRunResultDry.exitCode ∧
      r2.digestWritten = sampleRunResultDry.digestWritten ∧
      r2.markedSeen = sampleRunResultDry.markedSeen ∧
      r2.savedFile = sampleRunResultDry.savedFile ∧
      r2.selected = sampleRunResultDry.selected ∧
      r2.printedBody = false ∧ r2.prAttempted = true) :=
  run_paper_dry_run_frame [paperA] FileState.absent 0 0 none sampleRunResultDry rfl rfl

/-- Claim C10, counterexample to the claim as stated: the four consecutive
calendar days 2025-12-30 .. 2026-01-02 do not cover all four categories —
the day-of-year restarts at the year boundary, so "security" repeats and
"cloud" never appears. -/
theorem get_todays_category_counterexample :
    nextDay 2025 12 30 = (2025, 12, 31) ∧
    nextDay 2025 12 31 = (2026, 1, 1) ∧
    nextDay 2026 1 1 = (2026, 1, 2) ∧
    get_todays_category 2025 12 31 = "security" ∧
    get_todays_category 2026 1 1 = "security" ∧
    "cloud" ∉ [get_todays_category 2025 12 30, get_todays_category 2025 12 31,
      get_todays_category 2026 1 1, get_todays_category 2026 1 2] := by
  decide

/-- Claim C10 (amended): `get_todays_category` is the pure function
`CATEGORY_ORDER[dayOfYear mod 4]`, always one of the four category keys;
over any four days with consecutive day-of-year values each category
appears exactly once, and within a year the successor day's day-of-year
is exactly one larger — the once-per-window rotation therefore holds for
any four consecutive days that do not cross a year boundary. -/
theorem get_todays_category_rotation (y m d : Nat) (hm1 : 1 ≤ m) (hm2 : m ≤ 12)
    (hd1 : 1 ≤ d) (hd2 : d ≤ daysInMonth y m) :
    get_todays_category y m d = CATEGORY_ORDER.getD (dayOfYear y m d % 4) "" ∧
    get_todays_category y m d ∈ CATEGORY_ORDER ∧
    (∀ n : Nat, List.Perm
      [categoryOfDayOfYear n, categoryOfDayOfYear (n + 1),
        categoryOfDayOfYear (n + 2), categoryOfDayOfYear (n + 3)] CATEGORY_ORDER) ∧
    ((nextDay y m d).1 = y →
      dayOfYear y (nextDay y m d).2.1 (nextDay y m d).2.2 = dayOfYear y m d + 1) :=
  ⟨rfl, categoryOfDayOfYear_mem _, rotation_perm,
    dayOfYear_nextDay y m d hm1 hm2 hd1 hd2⟩

/-- Witness for C10 at a concrete date (2026-03-14). -/
theorem get_todays_category_rotation_witness :
    1 ≤ 3 ∧ 3 ≤ 12 ∧ 1 ≤ 14 ∧ 14 ≤ daysInMonth 2026 3 ∧
    (get_todays_category 2026 3 14 = CATEGORY_ORDER.getD (dayOfYear 2026 3 14 % 4) "" ∧
    get_todays_category 2026 3 14 ∈ CATEGORY_ORDER ∧
    (∀ n : Nat, List.Perm
      [categoryOfDayOfYear n, categoryOfDayOfYear (n + 1),
        categoryOfDayOfYear (n + 2), categoryOfDayOfYear (n + 3)] CATEGORY_ORDER) ∧
    ((nextDay 2026 3 14).1 = 2026 →
      dayOfYear 2026 (nextDay 2026 3 14).2.1 (nextDay 2026 3 14).2.2 =
        dayOfYear 2026 3 14 + 1)) :=
  ⟨by norm_num, by norm_num, by norm_num, by decide,
    get_todays_category_rotation 2026 3 14 (by norm_num) (by norm_num) (by norm_num)
      (by decide)⟩

end NewsDigest
